import Mathlib

/-!
Verification development for a small Express-based HTTP relay
(`server/server.js`, in three revisions).  The server exposes
`/api/chat`, `/api/summarize` and `/api/generate-avatar`, each a thin
passthrough to an upstream completion / image API, behind a manual CORS
origin gate.

Shallow embedding conventions:
* JavaScript strings are modelled as `List Nat` of Unicode code points
  (`codes` converts a Lean string literal).  The strings handled by the
  gate and the handlers are BMP text, where code points coincide with
  the UTF-16 units JavaScript's `length` / `slice` operate on.
* The upstream HTTP response is a record of its status, raw body text,
  and the result of `JSON.parse(bodyText)` projected to the fields the
  handlers read (`choices?.[0]?.message?.content`, `data?.[0]?.b64_json`);
  `parsed = none` models `JSON.parse` throwing.
* Express middleware either responds or calls `next()`; `GateResult`
  captures both, carrying the headers set via `res.setHeader`.
-/

/-- Code points of a Lean string literal, the `List Nat` model of a JS string. -/
def codes (s : String) : List Nat :=
  s.toList.map Char.toNat

/-- ASCII lower-casing of one code point, as `String.prototype.toLowerCase`
acts on the ASCII range (the only range the origins and labels here use). -/
def lowerCh (n : Nat) : Nat :=
  if 65 ≤ n ∧ n ≤ 90 then n + 32 else n

/-- `s.toLowerCase()`. -/
def lowerStr (s : List Nat) : List Nat :=
  s.map lowerCh

/-- `s.replace(/\/+$/, '')`: remove the maximal run of trailing `'/'`
(code point 47). -/
def stripSlashes (s : List Nat) : List Nat :=
  ((s.reverse).dropWhile (fun c => decide (c = 47))).reverse

/-- JavaScript whitespace class `\s` (also the set `String.prototype.trim`
removes): tab, LF, VT, FF, CR, space, NBSP, and the Unicode space
separators, line/paragraph separators and BOM. -/
def isJsWS (n : Nat) : Bool :=
  decide (9 ≤ n ∧ n ≤ 13) || decide (n = 32) || decide (n = 160) ||
  decide (n = 5760) || decide (8192 ≤ n ∧ n ≤ 8202) || decide (n = 8232) ||
  decide (n = 8233) || decide (n = 8239) || decide (n = 8287) ||
  decide (n = 12288) || decide (n = 65279)

/-- `s.trim()`. -/
def trimStr (s : List Nat) : List Nat :=
  (((s.dropWhile isJsWS).reverse).dropWhile isJsWS).reverse

/-- `s.split(sep)` for a one-character separator; always returns at least
one (possibly empty) piece, as in JavaScript. -/
def splitOnNum (sep : Nat) : List Nat → List (List Nat)
  | [] => [[]]
  | x :: xs =>
    match splitOnNum sep xs with
    | [] => [[]]
    | l :: ls => if x = sep then [] :: l :: ls else (x :: l) :: ls

/-- The configured allow-list, from `server.js`:
`(process.env.ALLOWED_ORIGIN || '...').split(',')
   .map(s => s.trim().replace(/\/+$/,'').toLowerCase()).filter(Boolean)`. -/
def mkAllowed (cfg : List Nat) : List (List Nat) :=
  ((splitOnNum 44 cfg).map (fun s => lowerStr (stripSlashes (trimStr s)))).filter
    (fun s => decide (s ≠ []))

/-- Outcome of an Express middleware: an immediate response (status,
headers set so far, body) or `next()` with the headers set so far. -/
inductive GateResult where
  | respond (status : Nat) (headers : List (List Nat × List Nat)) (body : List Nat)
  | next (headers : List (List Nat × List Nat))
deriving DecidableEq

/-- Status of an immediate response, `none` when the middleware passed on. -/
def statusOf : GateResult → Option Nat
  | .respond s _ _ => some s
  | .next _ => none

/-- Body of an immediate response. -/
def bodyOf : GateResult → Option (List Nat)
  | .respond _ _ b => some b
  | .next _ => none

/-- Headers set by the middleware. -/
def headersOf : GateResult → List (List Nat × List Nat)
  | .respond _ h _ => h
  | .next h => h

/-- First header with the given name, as set via `res.setHeader`. -/
def getHeader (name : List Nat) (hs : List (List Nat × List Nat)) : Option (List Nat) :=
  (hs.find? (fun p => decide (p.1 = name))).map Prod.snd

def hACAO : List Nat := codes ("Access-Control-Allow-Origin")
def hACAM : List Nat := codes ("Access-Control-Allow-Methods")
def hACAH : List Nat := codes ("Access-Control-Allow-Headers")
def hACAC : List Nat := codes ("Access-Control-Allow-Credentials")
def hVary : List Nat := codes ("Vary")
def vOrigin : List Nat := codes ("Origin")
def vMethods : List Nat := codes ("GET,POST,PUT,PATCH,DELETE,OPTIONS")
def vHeaders : List Nat := codes ("Content-Type, Authorization")
def mOPTIONS : List Nat := codes ("OPTIONS")

/-- `const isAllowed = !!raw && ALLOWED.includes(norm)` where
`norm = raw.replace(/\/+$/,'').toLowerCase()`. -/
def isAllowedOrigin (allowed : List (List Nat)) (raw : List Nat) : Bool :=
  decide (raw ≠ []) && decide (lowerStr (stripSlashes raw) ∈ allowed)

/-- The manual CORS middleware `app.use('/api', ...)` of the manual-CORS
revision: `raw = req.headers.origin || ''`; on OPTIONS it answers 204 with
the allow headers when the normalized origin is listed and 403 otherwise,
always with an empty body; on other methods it sets the allow-origin and
`Vary` headers when listed and continues either way. -/
def corsGate (allowed : List (List Nat)) (method : List Nat)
    (originHeader : Option (List Nat)) : GateResult :=
  if method = mOPTIONS then
    if isAllowedOrigin allowed (originHeader.getD []) then
      .respond 204
        [(hACAO, originHeader.getD []), (hVary, vOrigin),
         (hACAM, vMethods), (hACAH, vHeaders)] []
    else
      .respond 403 [] []
  else
    if isAllowedOrigin allowed (originHeader.getD []) then
      .next [(hACAO, originHeader.getD []), (hVary, vOrigin)]
    else
      .next []

/-- The preflight short-circuit middleware of the `src/server/server.js`
revision: non-OPTIONS requests pass through; an OPTIONS request with an
empty normalized origin gets 400; a listed origin gets 204 with the allow
headers (`res.set('Access-Control-Allow-Origin', raw)` guarded by `raw`
being truthy); anything else gets 403.  The clause
`ALLOW_NULL_ORIGIN && raw === undefined` of the source is unreachable
(`raw` is `req.headers.origin || ''`, always a string) and is omitted. -/
def preflightShortCircuit (allowed : List (List Nat)) (method : List Nat)
    (originHeader : Option (List Nat)) : GateResult :=
  if method ≠ mOPTIONS then .next []
  else
    if lowerStr (stripSlashes (originHeader.getD [])) = [] then
      .respond 400 [] []
    else if decide (lowerStr (stripSlashes (originHeader.getD [])) ∈ allowed) then
      .respond 204
        ((if originHeader.getD [] ≠ [] then [(hACAO, originHeader.getD [])] else []) ++
         [(hVary, vOrigin), (hACAM, vMethods), (hACAH, vHeaders)]) []
    else
      .respond 403 [] []

/-! ### Basic lemmas about the string primitives -/

theorem lowerCh_idem (n : Nat) : lowerCh (lowerCh n) = lowerCh n := by
  unfold lowerCh
  split
  · split <;> omega
  · rfl

theorem lowerCh_eq_slash (n : Nat) : lowerCh n = 47 ↔ n = 47 := by
  unfold lowerCh
  split <;> omega

theorem dropWhile_lowerStr (s : List Nat) :
    (lowerStr s).dropWhile (fun c => decide (c = 47)) =
      lowerStr (s.dropWhile (fun c => decide (c = 47))) := by
  induction s with
  | nil => rfl
  | cons x xs ih =>
    by_cases hx : x = 47
    · subst hx
      have h47 : lowerCh 47 = 47 := by decide
      simp [lowerStr, List.dropWhile_cons, h47] at ih ⊢
      simpa [lowerStr] using ih
    · have hlx : ¬ lowerCh x = 47 := fun h => hx ((lowerCh_eq_slash x).mp h)
      simp [lowerStr, List.dropWhile_cons, hx, hlx]

theorem stripSlashes_lowerStr (s : List Nat) :
    stripSlashes (lowerStr s) = lowerStr (stripSlashes s) := by
  unfold stripSlashes
  rw [show (lowerStr s).reverse = lowerStr s.reverse by
        simp [lowerStr, List.map_reverse],
      dropWhile_lowerStr]
  simp [lowerStr, List.map_reverse]

theorem lowerStr_idem (s : List Nat) : lowerStr (lowerStr s) = lowerStr s := by
  unfold lowerStr
  rw [List.map_map]
  exact List.map_congr_left (fun a _ => lowerCh_idem a)

theorem stripSlashes_idem (s : List Nat) :
    stripSlashes (stripSlashes s) = stripSlashes s := by
  unfold stripSlashes
  rw [List.reverse_reverse, List.dropWhile_idempotent]

theorem nil_not_mem_mkAllowed (cfg : List Nat) : [] ∉ mkAllowed cfg := by
  intro h
  simp [mkAllowed, List.mem_filter] at h

/-! ### CORS gate claims -/

/-- C2: the gate's allow/deny decision is invariant under lower-casing the
origin and under removing its trailing slashes; in particular
`https://Example.com/` and `https://example.com` are treated identically. -/
theorem c2_origin_matching_invariant (cfg o : List Nat) :
    isAllowedOrigin (mkAllowed cfg) o = isAllowedOrigin (mkAllowed cfg) (lowerStr o) ∧
    isAllowedOrigin (mkAllowed cfg) o = isAllowedOrigin (mkAllowed cfg) (stripSlashes o) ∧
    isAllowedOrigin (mkAllowed cfg) (codes ("https://Example.com/")) =
      isAllowedOrigin (mkAllowed cfg) (codes ("https://example.com")) := by
  refine ⟨?_, ?_, ?_⟩
  · unfold isAllowedOrigin
    rw [stripSlashes_lowerStr, lowerStr_idem]
    by_cases ho : o = []
    · subst ho; rfl
    · have hl : lowerStr o ≠ [] := by simpa [lowerStr] using ho
      simp [ho, hl]
  · by_cases hs : stripSlashes o = []
    · by_cases ho : o = []
      · subst ho; rfl
      · have h1 : isAllowedOrigin (mkAllowed cfg) o = false := by
          unfold isAllowedOrigin
          rw [hs]
          simp [lowerStr, nil_not_mem_mkAllowed cfg]
        have h2 : isAllowedOrigin (mkAllowed cfg) (stripSlashes o) = false := by
          unfold isAllowedOrigin
          rw [hs]
          simp
        rw [h1, h2]
    · have ho : o ≠ [] := by
        intro h
        apply hs
        rw [h]
        rfl
      unfold isAllowedOrigin
      rw [stripSlashes_idem]
      simp [ho, hs]
  · have hnorm : lowerStr (stripSlashes (codes ("https://Example.com/"))) =
        lowerStr (stripSlashes (codes ("https://example.com"))) := by decide
    unfold isAllowedOrigin
    rw [hnorm]
    have h1 : decide (codes ("https://Example.com/") ≠ []) = true := by decide
    have h2 : decide (codes ("https://example.com") ≠ []) = true := by decide
    rw [h1, h2]

/-- C1: a preflight (OPTIONS) request whose normalized origin is in the
configured set gets 204, an empty body and the three allow headers; one
whose normalized origin is not in the set gets 403, an empty body and no
allow headers. -/
theorem c1_preflight_allow_deny (cfg o : List Nat) :
    (lowerStr (stripSlashes o) ∈ mkAllowed cfg →
      statusOf (corsGate (mkAllowed cfg) mOPTIONS (some o)) = some 204 ∧
      bodyOf (corsGate (mkAllowed cfg) mOPTIONS (some o)) = some [] ∧
      getHeader hACAO (headersOf (corsGate (mkAllowed cfg) mOPTIONS (some o))) = some o ∧
      getHeader hACAM (headersOf (corsGate (mkAllowed cfg) mOPTIONS (some o))) = some vMethods ∧
      getHeader hACAH (headersOf (corsGate (mkAllowed cfg) mOPTIONS (some o))) = some vHeaders) ∧
    (lowerStr (stripSlashes o) ∉ mkAllowed cfg →
      statusOf (corsGate (mkAllowed cfg) mOPTIONS (some o)) = some 403 ∧
      bodyOf (corsGate (mkAllowed cfg) mOPTIONS (some o)) = some [] ∧
      getHeader hACAO (headersOf (corsGate (mkAllowed cfg) mOPTIONS (some o))) = none ∧
      getHeader hACAM (headersOf (corsGate (mkAllowed cfg) mOPTIONS (some o))) = none ∧
      getHeader hACAH (headersOf (corsGate (mkAllowed cfg) mOPTIONS (some o))) = none) := by
  constructor
  · intro hmem
    have ho : o ≠ [] := by
      intro h
      subst h
      exact nil_not_mem_mkAllowed cfg hmem
    have hA : isAllowedOrigin (mkAllowed cfg) o = true := by
      unfold isAllowedOrigin
      simp [ho, hmem]
    have hg : corsGate (mkAllowed cfg) mOPTIONS (some o) =
        .respond 204 [(hACAO, o), (hVary, vOrigin), (hACAM, vMethods), (hACAH, vHeaders)] [] := by
      unfold corsGate
      simp [hA]
    rw [hg]
    exact ⟨rfl, rfl, rfl, rfl, rfl⟩
  · intro hmem
    have hA : isAllowedOrigin (mkAllowed cfg) o = false := by
      unfold isAllowedOrigin
      simp [hmem]
    have hg : corsGate (mkAllowed cfg) mOPTIONS (some o) = .respond 403 [] [] := by
      unfold corsGate
      simp [hA]
    rw [hg]
    exact ⟨rfl, rfl, rfl, rfl, rfl⟩

def cfgW : List Nat := codes ("https://example.com")

def oAllowW : List Nat := codes ("https://Example.COM/")

def oDenyW : List Nat := codes ("https://evil.example")

/-- Witness for C1 at a concrete configuration: `https://Example.COM/` is
allowed against the list `https://example.com`, `https://evil.example` is
denied. -/
theorem c1_preflight_allow_deny_witness :
    (statusOf (corsGate (mkAllowed cfgW) mOPTIONS (some oAllowW)) = some 204 ∧
     bodyOf (corsGate (mkAllowed cfgW) mOPTIONS (some oAllowW)) = some [] ∧
     getHeader hACAO (headersOf (corsGate (mkAllowed cfgW) mOPTIONS (some oAllowW))) = some oAllowW ∧
     getHeader hACAM (headersOf (corsGate (mkAllowed cfgW) mOPTIONS (some oAllowW))) = some vMethods ∧
     getHeader hACAH (headersOf (corsGate (mkAllowed cfgW) mOPTIONS (some oAllowW))) = some vHeaders) ∧
    (statusOf (corsGate (mkAllowed cfgW) mOPTIONS (some oDenyW)) = some 403 ∧
     bodyOf (corsGate (mkAllowed cfgW) mOPTIONS (some oDenyW)) = some [] ∧
     getHeader hACAO (headersOf (corsGate (mkAllowed cfgW) mOPTIONS (some oDenyW))) = none ∧
     getHeader hACAM (headersOf (corsGate (mkAllowed cfgW) mOPTIONS (some oDenyW))) = none ∧
     getHeader hACAH (headersOf (corsGate (mkAllowed cfgW) mOPTIONS (some oDenyW))) = none) :=
  ⟨(c1_preflight_allow_deny cfgW oAllowW).1 (by decide),
   (c1_preflight_allow_deny cfgW oDenyW).2 (by decide)⟩

/-- C8: the gate never sets `Access-Control-Allow-Credentials`, on any
method, origin and allow/deny outcome. -/
theorem c8_no_credentials_header (allowed : List (List Nat)) (method : List Nat)
    (originHeader : Option (List Nat)) :
    getHeader hACAC (headersOf (corsGate allowed method originHeader)) = none := by
  unfold corsGate
  split
  · split
    · rfl
    · rfl
  · split
    · rfl
    · rfl

/-- C10: a preflight with no Origin header is rejected with a 4xx status,
an empty body and no allow-origin header, by both the manual gate (403)
and the preflight short-circuit revision (400). -/
theorem c10_originless_preflight_rejected (allowed : List (List Nat)) :
    statusOf (corsGate allowed mOPTIONS none) = some 403 ∧
    bodyOf (corsGate allowed mOPTIONS none) = some [] ∧
    getHeader hACAO (headersOf (corsGate allowed mOPTIONS none)) = none ∧
    statusOf (preflightShortCircuit allowed mOPTIONS none) = some 400 ∧
    bodyOf (preflightShortCircuit allowed mOPTIONS none) = some [] ∧
    getHeader hACAO (headersOf (preflightShortCircuit allowed mOPTIONS none)) = none := by
  refine ⟨rfl, rfl, rfl, ?_, ?_, ?_⟩ <;>
    · unfold preflightShortCircuit
      rfl

/-! ### Upstream responses and the chat / summarize handlers -/

/-- Fields of the parsed completion-API response body that the handlers
read: `data.choices?.[0]?.message?.content` when it is present (a string). -/
structure ParsedBody where
  content : Option (List Nat)
deriving DecidableEq

/-- An upstream HTTP response as the handlers see it: `r.status`, the raw
`bodyText = await r.text()`, and the result of `JSON.parse(bodyText)`
projected to the fields read (`parsed = none` models the parse throwing,
which the surrounding `try` turns into a 500 `server_error`). -/
structure UpstreamResp where
  status : Nat
  bodyText : List Nat
  parsed : Option ParsedBody
deriving DecidableEq

/-- `r.ok`: status in the inclusive range 200–299. -/
def jsOk (status : Nat) : Bool :=
  decide (200 ≤ status) && decide (status ≤ 299)

/-- JSON body of a `/api/chat` response. -/
inductive ChatOut where
  | reply (text : List Nat)
  | openaiError (detail : List Nat)
  | serverError
deriving DecidableEq

/-- `'ちょっと待って、今混み合ってるみたい。'`, the fixed filler reply on upstream 429. -/
def filler429chat : List Nat := codes ("ちょっと待って、今混み合ってるみたい。")

/-- `'うん、わかったよ。'`, the default reply when the upstream content is
missing or trims to the empty string. -/
def dfltReply : List Nat := codes ("うん、わかったよ。")

/-- `data.choices?.[0]?.message?.content?.trim()`: `[]` (falsy) when the
content is absent. -/
def trimOpt : Option (List Nat) → List Nat
  | none => []
  | some c => trimStr c

/-- `x || 'うん、わかったよ。'`. -/
def defaultIfEmpty (t : List Nat) : List Nat :=
  if t = [] then dfltReply else t

/-- `if (reply.length > 60) reply = reply.slice(0, 60)`. -/
def capReply (b : List Nat) : List Nat :=
  if 60 < b.length then b.take 60 else b

/-- A conversation turn `{role, text}` from the request body. -/
structure ChatMsg where
  role : List Nat
  text : List Nat

/-- `l.slice(-10)`: the last (at most) `n` elements. -/
def lastN (n : Nat) (l : List α) : List α :=
  l.drop (l.length - n)

/-- The `(role, content)` pairs `/api/chat` sends upstream:
`messages.slice(-10).map(m => ({role: m.role === 'assistant' ? 'assistant' : 'user', content: m.text}))`. -/
def chatUpstreamMessages (msgs : List ChatMsg) : List (List Nat × List Nat) :=
  (lastN 10 msgs).map fun m =>
    (if m.role = codes ("assistant") then codes ("assistant") else codes ("user"), m.text)

/-- The `POST /api/chat` handler after the upstream call returned `r`:
429 gives the fixed filler with status 200; other non-2xx statuses are
passed through as `openai_error` with the raw body; a parse failure is a
500 `server_error`; otherwise the trimmed (or defaulted) content is capped
at 60 characters and returned with status 200. -/
def chatHandler (r : UpstreamResp) : Nat × ChatOut :=
  if r.status = 429 then (200, .reply filler429chat)
  else if jsOk r.status = false then (r.status, .openaiError r.bodyText)
  else
    match r.parsed with
    | none => (500, .serverError)
    | some p => (200, .reply (capReply (defaultIfEmpty (trimOpt p.content))))

/-- JSON body of a `/api/summarize` response. -/
inductive SummOut where
  | fields (topics sentiment hint raw : List Nat)
  | openaiError (detail : List Nat)
  | serverError
deriving DecidableEq

def dfltTopics : List Nat := codes ("casual")

def dfltSentiment : List Nat := codes ("neutral")

def dfltHint : List Nat := codes ("neutral casual")

def raw429 : List Nat := codes ("fallback:429")

def labelTopics : List Nat := codes ("Topics:")

def labelSentiment : List Nat := codes ("Sentiment:")

def labelHint : List Nat := codes ("Style hint:")

/-- Case-insensitive test that `needle` matches at the head of `hay`, as a
regex of literal characters with the `i` flag matches at one position. -/
def ciStartsWith : List Nat → List Nat → Bool
  | [], _ => true
  | _ :: _, [] => false
  | n :: ns, h :: hs => decide (lowerCh n = lowerCh h) && ciStartsWith ns hs

/-- Scan for the first (case-insensitive) occurrence of `needle` in `hay`;
on success return the rest of `hay` after the match, as `exec` leaves the
regex's remaining input for `\s*(.*)` to consume. -/
def ciFind (needle : List Nat) : List Nat → Option (List Nat)
  | [] => if needle = [] then some [] else none
  | h :: hs =>
    if ciStartsWith needle (h :: hs) then some ((h :: hs).drop needle.length)
    else ciFind needle hs

/-- `(ciFind needle hay).isSome`. -/
def ciContains (needle hay : List Nat) : Bool :=
  (ciFind needle hay).isSome

/-- `/Label:\s*(.*)/i.exec(content)?.[1]?.trim() || dflt`: find the label
case-insensitively, skip whitespace, capture to the end of the line, trim,
and fall back to the default when there is no match or the capture trims
to the empty string. -/
def extractField (label dflt content : List Nat) : List Nat :=
  match ciFind label content with
  | none => dflt
  | some rest =>
    if trimStr ((rest.dropWhile isJsWS).takeWhile (fun c => decide (c ≠ 10))) = [] then dflt
    else trimStr ((rest.dropWhile isJsWS).takeWhile (fun c => decide (c ≠ 10)))

/-- No line of `content` contains a (case-insensitive) occurrence of
`label`. -/
def noLabelLine (label content : List Nat) : Bool :=
  (splitOnNum 10 content).all fun l => !(ciContains label l)

/-- The `POST /api/summarize` handler after the upstream call returned `r`:
429 gives the fixed defaults with status 200; other non-2xx statuses are
passed through as `openai_error`; a parse failure is a 500 `server_error`;
otherwise the three labeled fields are extracted from the content
(`content || ''`) and returned with the raw content and status 200. -/
def summarizeHandler (r : UpstreamResp) : Nat × SummOut :=
  if r.status = 429 then (200, .fields dfltTopics dfltSentiment dfltHint raw429)
  else if jsOk r.status = false then (r.status, .openaiError r.bodyText)
  else
    match r.parsed with
    | none => (500, .serverError)
    | some p =>
      (200, .fields (extractField labelTopics dfltTopics (p.content.getD []))
                    (extractField labelSentiment dfltSentiment (p.content.getD []))
                    (extractField labelHint dfltHint (p.content.getD []))
                    (p.content.getD []))

theorem capReply_length_le (b : List Nat) : (capReply b).length ≤ 60 := by
  unfold capReply
  split
  · rw [List.length_take]
    omega
  · omega

/-- C3: every success response of `/api/chat` carries a reply of at most
60 characters, whatever the upstream produced. -/
theorem c3_chat_reply_at_most_60 (r : UpstreamResp) (st : Nat) (t : List Nat)
    (h : chatHandler r = (st, ChatOut.reply t)) : t.length ≤ 60 := by
  unfold chatHandler at h
  split at h
  · simp only [Prod.mk.injEq, ChatOut.reply.injEq] at h
    obtain ⟨h1, h2⟩ := h
    subst h2
    decide
  · split at h
    · simp at h
    · split at h
      · simp at h
      · simp only [Prod.mk.injEq, ChatOut.reply.injEq] at h
        obtain ⟨h1, h2⟩ := h
        subst h2
        exact capReply_length_le _

def longContentW : List Nat :=
  codes ("0123456789012345678901234567890123456789012345678901234567890123456789")

def chatRespW : UpstreamResp := ⟨200, [], some ⟨some longContentW⟩⟩

/-- Witness for C3: a stubbed 200 upstream response whose content is 70
characters long. -/
theorem c3_chat_reply_at_most_60_witness :
    (capReply (defaultIfEmpty (trimOpt (some longContentW)))).length ≤ 60 :=
  c3_chat_reply_at_most_60 chatRespW 200 _ rfl

/-- C4: on upstream status 429 both `/api/chat` and `/api/summarize`
answer 200 with their fixed fallback payloads, whatever the upstream body
was. -/
theorem c4_rate_limit_fallback (body : List Nat) (p : Option ParsedBody) :
    chatHandler ⟨429, body, p⟩ = (200, ChatOut.reply filler429chat) ∧
    summarizeHandler ⟨429, body, p⟩ =
      (200, SummOut.fields dfltTopics dfltSentiment dfltHint raw429) := by
  constructor <;> rfl

def contentC7 : List Nat :=
  codes ("Hey there, nice to chat! 😊 What's up with you today?")

def chatStubC7 : UpstreamResp := ⟨200, [], some ⟨some contentC7⟩⟩

def msgsC7 : List ChatMsg := [⟨codes ("user"), codes ("hi")⟩]

/-- C7: with request body `{messages:[{role:'user',text:'hi'}]}` and a
stubbed upstream 200 whose content is the example sentence, the handler
returns status 200 and exactly the first 60 characters of that content —
which, the content being 52 code points long, is the whole content. -/
theorem c7_chat_example :
    chatUpstreamMessages msgsC7 = [(codes ("user"), codes ("hi"))] ∧
    chatHandler chatStubC7 = (200, ChatOut.reply (contentC7.take 60)) ∧
    contentC7.take 60 = contentC7 := by
  refine ⟨by decide, by decide, by decide⟩

/-! ### Line-level characterisation of the label search -/

theorem splitOnNum_head (sep : Nat) (l : List Nat) :
    ∃ ls, splitOnNum sep l = (l.takeWhile fun x => decide (x ≠ sep)) :: ls := by
  induction l with
  | nil => exact ⟨[], rfl⟩
  | cons x xs ih =>
    obtain ⟨ls, hls⟩ := ih
    by_cases hx : x = sep
    · refine ⟨(xs.takeWhile fun x => decide (x ≠ sep)) :: ls, ?_⟩
      simp only [splitOnNum]
      rw [hls]
      simp [List.takeWhile_cons, hx]
    · refine ⟨ls, ?_⟩
      simp only [splitOnNum]
      rw [hls]
      simp [List.takeWhile_cons, hx]

theorem splitOnNum_ne_nil (sep : Nat) (l : List Nat) : splitOnNum sep l ≠ [] := by
  obtain ⟨ls, hls⟩ := splitOnNum_head sep l
  rw [hls]
  simp

theorem ciStartsWith_takeWhile (needle : List Nat)
    (hnl : ∀ n ∈ needle, lowerCh n ≠ 10) :
    ∀ hay, ciStartsWith needle hay = true →
      ciStartsWith needle (hay.takeWhile fun c => decide (c ≠ 10)) = true := by
  induction needle with
  | nil => intro hay _; rfl
  | cons n ns ih =>
    intro hay h
    cases hay with
    | nil => simp [ciStartsWith] at h
    | cons x xs =>
      simp only [ciStartsWith, Bool.and_eq_true, decide_eq_true_eq] at h
      obtain ⟨h1, h2⟩ := h
      have hx : x ≠ 10 := by
        intro hx10
        subst hx10
        exact hnl n (List.mem_cons_self _ _) (by rw [h1]; decide)
      rw [List.takeWhile_cons, if_pos (decide_eq_true hx)]
      simp only [ciStartsWith, Bool.and_eq_true, decide_eq_true_eq]
      exact ⟨h1, ih (fun m hm => hnl m (List.mem_cons_of_mem _ hm)) xs h2⟩

theorem ciContains_of_startsWith (needle hay : List Nat) (hne : needle ≠ [])
    (h : ciStartsWith needle hay = true) : ciContains needle hay = true := by
  cases hay with
  | nil =>
    cases needle with
    | nil => exact absurd rfl hne
    | cons a as => simp [ciStartsWith] at h
  | cons x xs =>
    unfold ciContains
    simp only [ciFind]
    rw [if_pos h]
    rfl

theorem ciContains_cons (needle : List Nat) (x : Nat) (hay : List Nat)
    (h : ciContains needle hay = true) : ciContains needle (x :: hay) = true := by
  unfold ciContains at h ⊢
  simp only [ciFind]
  split
  · rfl
  · exact h

theorem ciFind_eq_none_of_noLabelLine (needle : List Nat) (hne : needle ≠ [])
    (hnl : ∀ n ∈ needle, lowerCh n ≠ 10) :
    ∀ hay, (∀ line ∈ splitOnNum 10 hay, ciContains needle line = false) →
      ciFind needle hay = none := by
  intro hay
  induction hay with
  | nil =>
    intro _
    cases needle with
    | nil => exact absurd rfl hne
    | cons a as => rfl
  | cons x xs ih =>
    intro hno
    by_cases hstart : ciStartsWith needle (x :: xs) = true
    · exfalso
      obtain ⟨ls, hls⟩ := splitOnNum_head 10 (x :: xs)
      have hci : ciContains needle ((x :: xs).takeWhile fun c => decide (c ≠ 10)) = true :=
        ciContains_of_startsWith _ _ hne (ciStartsWith_takeWhile needle hnl (x :: xs) hstart)
      have hfalse := hno _ (by rw [hls]; exact List.mem_cons_self _ _)
      rw [hfalse] at hci
      exact Bool.false_ne_true hci
    · have hstep : ciFind needle (x :: xs) = ciFind needle xs := by
        simp only [ciFind]
        rw [if_neg hstart]
      rw [hstep]
      apply ih
      intro line hline
      by_cases hx : x = 10
      · subst hx
        apply hno
        have hsplit : splitOnNum 10 (10 :: xs) = [] :: splitOnNum 10 xs := by
          simp only [splitOnNum]
          cases hsp : splitOnNum 10 xs with
          | nil => exact absurd hsp (splitOnNum_ne_nil 10 xs)
          | cons l ls => simp
        rw [hsplit]
        exact List.mem_cons_of_mem _ hline
      · cases hsp : splitOnNum 10 xs with
        | nil => exact absurd hsp (splitOnNum_ne_nil 10 xs)
        | cons l ls =>
          have hsplit : splitOnNum 10 (x :: xs) = (x :: l) :: ls := by
            simp only [splitOnNum]
            rw [hsp]
            simp [hx]
          rw [hsp] at hline
          rcases List.mem_cons.mp hline with h1 | h2
          · subst h1
            have hfalse := hno (x :: line) (by rw [hsplit]; exact List.mem_cons_self _ _)
            cases hb : ciContains needle line with
            | false => rfl
            | true =>
              have := ciContains_cons needle x line hb
              rw [hfalse] at this
              exact absurd this Bool.false_ne_true
          · exact hno line (by rw [hsplit]; exact List.mem_cons_of_mem _ h2)

theorem extractField_default (label dflt content : List Nat) (hne : label ≠ [])
    (hnl : ∀ n ∈ label, lowerCh n ≠ 10)
    (h : noLabelLine label content = true) :
    extractField label dflt content = dflt := by
  have hfind : ciFind label content = none := by
    apply ciFind_eq_none_of_noLabelLine label hne hnl content
    intro line hline
    have hl := List.all_eq_true.mp h line hline
    simpa using hl
  unfold extractField
  rw [hfind]

/-- C5: when the upstream call succeeds (2xx status, parseable body), the
summarize response carries all four fields with `raw` the upstream
content, and each of topics / sentiment / hint falls back to its fixed
default when no line of the content matches its label. -/
theorem c5_summarize_fields (r : UpstreamResp) (p : ParsedBody)
    (hok : jsOk r.status = true) (hp : r.parsed = some p) :
    ∃ t s h, summarizeHandler r =
        (200, SummOut.fields t s h (p.content.getD [])) ∧
      (noLabelLine labelTopics (p.content.getD []) = true → t = dfltTopics) ∧
      (noLabelLine labelSentiment (p.content.getD []) = true → s = dfltSentiment) ∧
      (noLabelLine labelHint (p.content.getD []) = true → h = dfltHint) := by
  have h429 : r.status ≠ 429 := by
    intro hs
    rw [hs] at hok
    exact absurd hok (by decide)
  refine ⟨extractField labelTopics dfltTopics (p.content.getD []),
    extractField labelSentiment dfltSentiment (p.content.getD []),
    extractField labelHint dfltHint (p.content.getD []), ?_, ?_, ?_, ?_⟩
  · unfold summarizeHandler
    rw [if_neg h429, hok, if_neg (by decide : ¬ (true = false)), hp]
  · intro hno
    exact extractField_default _ _ _ (by decide) (by decide) hno
  · intro hno
    exact extractField_default _ _ _ (by decide) (by decide) hno
  · intro hno
    exact extractField_default _ _ _ (by decide) (by decide) hno

def contentC5W : List Nat := codes ("hello")

def summStubC5 : UpstreamResp := ⟨200, [], some ⟨some contentC5W⟩⟩

/-- Witness for C5: a stubbed 200 upstream answer whose content has no
label lines at all. -/
theorem c5_summarize_fields_witness :
    ∃ t s h, summarizeHandler summStubC5 = (200, SummOut.fields t s h contentC5W) ∧
      (noLabelLine labelTopics contentC5W = true → t = dfltTopics) ∧
      (noLabelLine labelSentiment contentC5W = true → s = dfltSentiment) ∧
      (noLabelLine labelHint contentC5W = true → h = dfltHint) :=
  c5_summarize_fields summStubC5 ⟨some contentC5W⟩ (by decide) rfl

/-! ### Avatar generation -/

/-- A JavaScript value as the avatar handler's `req.body?.hint` can hold
it: `undefined` (field absent), `null`, a string, a number, a boolean, or
some other object. -/
inductive JsVal where
  | undef
  | jsNull
  | str (s : List Nat)
  | num (n : Int)
  | boolean (b : Bool)
  | obj
deriving DecidableEq

/-- JavaScript falsiness of such a value (`!hint`). -/
def jsFalsy : JsVal → Bool
  | .undef => true
  | .jsNull => true
  | .str s => decide (s = [])
  | .num n => decide (n = 0)
  | .boolean b => !b
  | .obj => false

/-- `typeof hint === 'string'`. -/
def jsIsString : JsVal → Bool
  | .str _ => true
  | _ => false

/-- Fields of the parsed image-API response body the handler reads:
`data?.data?.[0]?.b64_json`. -/
structure ImgParsed where
  b64 : Option (List Nat)
deriving DecidableEq

/-- An upstream image-API response: status, raw body text, and the parsed
body (`parsed = none` models `JSON.parse` throwing, which this handler
catches into an empty object). -/
structure ImgUpstream where
  status : Nat
  bodyText : List Nat
  parsed : Option ImgParsed
deriving DecidableEq

/-- JSON body of a `/api/generate-avatar` response. -/
inductive AvatarOut where
  | badRequest (detail : List Nat)
  | dataUrl (url : List Nat)
  | openaiError (detail : List Nat)
  | noImage
deriving DecidableEq

/-- The `POST /api/generate-avatar` handler.  The boolean of the result
records whether the upstream image API was called: the hint validation
(`if (!hint || typeof hint !== 'string')`) returns `400 bad_request`
before the `fetch`.  On an upstream non-2xx the error is passed through;
a missing `b64_json` (including an unparseable body, caught into `{}`)
is `502 no_image`; otherwise the data URL is returned. -/
def generateAvatarHandler (hint : JsVal) (r : ImgUpstream) : (Nat × AvatarOut) × Bool :=
  if jsFalsy hint || !(jsIsString hint) then
    ((400, .badRequest (codes ("hint must be a string"))), false)
  else if jsOk r.status = false then ((r.status, .openaiError r.bodyText), true)
  else
    match (r.parsed.getD ⟨none⟩).b64 with
    | none => ((502, .noImage), true)
    | some b => ((200, .dataUrl (codes ("data:image/png;base64,") ++ b)), true)

/-- C6: a request whose `hint` is absent or not a string gets
`400 bad_request`, and the upstream image API is not called. -/
theorem c6_avatar_hint_validation (hint : JsVal) (r : ImgUpstream)
    (h : hint = JsVal.undef ∨ jsIsString hint = false) :
    generateAvatarHandler hint r =
      ((400, AvatarOut.badRequest (codes ("hint must be a string"))), false) := by
  have hcond : (jsFalsy hint || !(jsIsString hint)) = true := by
    rcases h with h | h
    · subst h
      rfl
    · rw [h]
      simp
  unfold generateAvatarHandler
  rw [if_pos hcond]

/-- Witness for C6: an absent hint and a numeric hint. -/
theorem c6_avatar_hint_validation_witness :
    generateAvatarHandler JsVal.undef ⟨200, [], some ⟨some []⟩⟩ =
        ((400, AvatarOut.badRequest (codes ("hint must be a string"))), false) ∧
    generateAvatarHandler (JsVal.num 5) ⟨200, [], some ⟨some []⟩⟩ =
        ((400, AvatarOut.badRequest (codes ("hint must be a string"))), false) :=
  ⟨c6_avatar_hint_validation JsVal.undef ⟨200, [], some ⟨some []⟩⟩ (Or.inl rfl),
   c6_avatar_hint_validation (JsVal.num 5) ⟨200, [], some ⟨some []⟩⟩ (Or.inr rfl)⟩

/-- C9: the empty string is a string but falsy, so an empty `hint` is also
rejected with `400 bad_request` without an upstream call. -/
theorem c9_avatar_empty_hint_rejected (r : ImgUpstream) :
    generateAvatarHandler (JsVal.str []) r =
      ((400, AvatarOut.badRequest (codes ("hint must be a string"))), false) := by
  unfold generateAvatarHandler
  rw [if_pos (by decide)]
